import Mathlib

/-!
Shallow embedding of the SSH channel layer of `asyncssh/channel.py`
(class `SSHChannel` and its session variants), with proofs about its
flow control, close handling, request/response queue and text decoding.

Conventions of the embedding:
* byte strings are `List Nat` (one entry per byte); decoded text is
  `List Nat` (one entry per Unicode code point);
* `asyncio.Future` objects are `Waiter` values carrying an identifier and a
  cancellation flag; settling a waiter is recorded as a `WaiterEvent`;
* calls into the user session object are recorded as `SessionCall` values;
* outbound wire messages are recorded as `Packet` values; the peer channel
  number that `_send_packet` prefixes to every packet is omitted, since the
  model covers a single established channel where `_send_chan` is set and
  the `_send_chan is None` branch of `_send_packet` is unreachable;
* `recv_window` is an `Int` because the source debits the window of data
  buffered while reading is paused only at delivery time, which can drive
  the Python value negative;
* the window-adjust threshold `recv_window < init_recv_window / 2` (Python
  true division producing a float) is modelled as
  `2 * recv_window < init_recv_window`, which agrees with the float
  comparison for every window size below 2 ^ 53;
* the text `encoding` attribute is modelled as a flag selecting the UTF-8
  codec, the codec exercised by the specification; `pyDecode` mirrors the
  strict CPython UTF-8 decoder, including its error offsets and its
  distinction between the reason `unexpected end of data` and the other
  failure reasons, which is the only distinction `_deliver_data` inspects;
* the unbounded `while` loops of `_flush_send_buf` are modelled with enough
  fuel for every configuration with a positive `send_pktsize`; with
  `send_pktsize = 0` the source loops forever emitting empty packets, a
  configuration no negotiated channel can reach.
-/

namespace AsyncSSH

instance {ε α : Type} [DecidableEq ε] [DecidableEq α] :
    DecidableEq (Except ε α) := fun a b =>
  match a, b with
  | Except.ok x, Except.ok y => decidable_of_iff (x = y) (by simp)
  | Except.error e, Except.error f => decidable_of_iff (e = f) (by simp)
  | Except.ok _, Except.error _ => isFalse (by simp)
  | Except.error _, Except.ok _ => isFalse (by simp)

/-- `EXTENDED_DATA_STDERR` from `asyncssh/constants.py`. -/
def EXTENDED_DATA_STDERR : Nat := 1

/-- Values of `SSHChannel._send_state`. -/
inductive SendState where
  | closed
  | open_sent
  | open_received
  | opened
  | eof_pending
  | eof_sent
  | close_pending
  | close_sent
deriving DecidableEq, Repr

/-- Values of `SSHChannel._recv_state`. -/
inductive RecvState where
  | closed
  | opened
  | eof_received
deriving DecidableEq, Repr

/-- Outbound wire messages emitted on the channel. -/
inductive Packet where
  | channelOpen
  | windowAdjust (n : Nat)
  | data (payload : List Nat)
  | extendedData (datatype : Nat) (payload : List Nat)
  | eof
  | close
  | request (name : String) (wantReply : Bool)
  | success
  | failure
deriving DecidableEq, Repr

/-- Callbacks performed on the user session object. -/
inductive SessionCall where
  | data_received (data : List Nat) (datatype : Option Nat)
  | eof_received
  | connection_lost
  | pause_writing
  | resume_writing
deriving DecidableEq, Repr

/-- A pending `asyncio.Future` with an identifier and a cancellation flag. -/
structure Waiter where
  id : Nat
  cancelled : Bool
deriving DecidableEq, Repr

/-- The ways a waiter gets settled. -/
inductive WaiterEvent where
  | openResolved (id : Nat)
  | openFailed (id : Nat)
  | requestDone (id : Nat) (result : Bool)
  | requestFailed (id : Nat)
  | closeResolved (id : Nat)
deriving DecidableEq, Repr

/-- Exceptions raised by the channel code: `DisconnectError` with a reason,
`asyncio.InvalidStateError` from settling a non-pending future,
`BrokenPipeError`, and plain `OSError`. -/
inductive ChanError where
  | disconnect (reason : String)
  | invalidState
  | brokenPipe
  | osError (reason : String)
deriving DecidableEq, Repr

/-- An item accepted on the channel: either the `_EOF` marker or bytes. -/
inductive ChanData where
  | eof
  | bytes (data : List Nat)
deriving DecidableEq, Repr

/-- The per-channel state of `SSHChannel.__init__`, restricted to the
fields the channel logic reads or writes.  `session` records whether a
session object is installed (`self._session is not None`); `eof_ret`
records the boolean the installed session returns from `eof_received()`;
`recv_partial_map` models the `_recv_partial` dictionary.
The `_conn`, `_loop`, `_extra`, `_recv_chan` and `_send_chan` collaborator
references are not modelled: the model covers a single established channel
and records outbound packets directly. -/
structure Channel where
  encoding : Bool
  session : Bool
  eof_ret : Bool
  send_state : SendState
  send_window : Nat
  send_pktsize : Nat
  send_paused : Bool
  send_buf : List (List Nat × Option Nat)
  send_buf_len : Nat
  send_high_water : Nat
  send_low_water : Nat
  recv_state : RecvState
  init_recv_window : Int
  recv_window : Int
  recv_pktsize : Nat
  recv_paused : Bool
  recv_buf : List (ChanData × Option Nat)
  recv_partial_map : List (Option Nat × List Nat)
  open_waiter : Option Waiter
  request_waiters : List Waiter
  close_waiters : List Waiter
  read_datatypes : List Nat
  write_datatypes : List Nat
deriving DecidableEq, Repr

/-- Result of running a channel operation: the new channel state, the
packets sent to the peer, the session callbacks performed, and the waiter
settlements performed, each in order. -/
structure Outcome where
  ch : Channel
  pkts : List Packet
  calls : List SessionCall
  evs : List WaiterEvent
deriving DecidableEq, Repr

/-- `SSHChannel.__init__(conn, loop, encoding, window, max_pktsize)`:
both state machines start `closed`, reading starts paused, and
`set_write_buffer_limits()` installs the default 64 KiB / 16 KiB
water marks (its `_pause_resume_writing` call is a no-op on the empty
send buffer).  `_send_window`/`_send_pktsize` are `None` until the open
handshake; they are modelled as `0`, unread until then. -/
def initChannel (encoding : Bool) (window : Nat) (max_pktsize : Nat) : Channel where
  encoding := encoding
  session := false
  eof_ret := true
  send_state := SendState.closed
  send_window := 0
  send_pktsize := 0
  send_paused := false
  send_buf := []
  send_buf_len := 0
  send_high_water := 65536
  send_low_water := 16384
  recv_state := RecvState.closed
  init_recv_window := (window : Int)
  recv_window := (window : Int)
  recv_pktsize := max_pktsize
  recv_paused := true
  recv_buf := []
  recv_partial_map := []
  open_waiter := none
  request_waiters := []
  close_waiters := []
  read_datatypes := []
  write_datatypes := []

/-! ### The CPython strict UTF-8 codec, as far as `_deliver_data` observes it

`bytes.decode('utf-8')` either returns the decoded text or raises a
`UnicodeDecodeError` whose `start` is the offset of the first invalid
sequence and whose `reason` is `unexpected end of data` exactly when the
input ends in the middle of a well-formed sequence.  `_deliver_data` only
inspects `exc.start` and whether `exc.reason == 'unexpected end of data'`,
so the model keeps two reasons. -/

/-- The two classes of `UnicodeDecodeError` reason that the channel code
distinguishes. -/
inductive DecodeReason where
  | unexpectedEnd
  | invalid
deriving DecidableEq, Repr

/-- Decode one UTF-8 sequence from the front of the input.  On success,
returns the code point and the number of continuation bytes consumed
(total bytes consumed is that number plus one).  Mirrors the strict
CPython decoder: overlong encodings, surrogates and code points above
`U+10FFFF` are `invalid`; an input that ends inside a well-formed
sequence is `unexpectedEnd`. -/
def decodeOne : List Nat → Except DecodeReason (Nat × Nat)
  | [] => Except.error DecodeReason.unexpectedEnd
  | b0 :: rest =>
    if b0 < 0x80 then Except.ok (b0, 0)
    else if b0 < 0xC2 then Except.error DecodeReason.invalid
    else if b0 < 0xE0 then
      match rest with
      | [] => Except.error DecodeReason.unexpectedEnd
      | b1 :: _ =>
        if 0x80 ≤ b1 ∧ b1 ≤ 0xBF then
          Except.ok ((b0 - 0xC0) * 64 + (b1 - 0x80), 1)
        else Except.error DecodeReason.invalid
    else if b0 < 0xF0 then
      let lo := if b0 = 0xE0 then 0xA0 else 0x80
      let hi := if b0 = 0xED then 0x9F else 0xBF
      match rest with
      | [] => Except.error DecodeReason.unexpectedEnd
      | b1 :: rest1 =>
        if lo ≤ b1 ∧ b1 ≤ hi then
          match rest1 with
          | [] => Except.error DecodeReason.unexpectedEnd
          | b2 :: _ =>
            if 0x80 ≤ b2 ∧ b2 ≤ 0xBF then
              Except.ok ((b0 - 0xE0) * 4096 + (b1 - 0x80) * 64 + (b2 - 0x80), 2)
            else Except.error DecodeReason.invalid
        else Except.error DecodeReason.invalid
    else if b0 < 0xF5 then
      let lo := if b0 = 0xF0 then 0x90 else 0x80
      let hi := if b0 = 0xF4 then 0x8F else 0xBF
      match rest with
      | [] => Except.error DecodeReason.unexpectedEnd
      | b1 :: rest1 =>
        if lo ≤ b1 ∧ b1 ≤ hi then
          match rest1 with
          | [] => Except.error DecodeReason.unexpectedEnd
          | b2 :: rest2 =>
            if 0x80 ≤ b2 ∧ b2 ≤ 0xBF then
              match rest2 with
              | [] => Except.error DecodeReason.unexpectedEnd
              | b3 :: _ =>
                if 0x80 ≤ b3 ∧ b3 ≤ 0xBF then
                  Except.ok ((b0 - 0xF0) * 262144 + (b1 - 0x80) * 4096 +
                             (b2 - 0x80) * 64 + (b3 - 0x80), 3)
                else Except.error DecodeReason.invalid
            else Except.error DecodeReason.invalid
        else Except.error DecodeReason.invalid
    else Except.error DecodeReason.invalid

/-- Fuelled worker for `pyDecode`.  Every successful `decodeOne` step
consumes at least one byte, so fuel equal to the input length never runs
out; the zero-fuel clause on a non-empty input is unreachable from
`pyDecode`. -/
def pyDecodeAux : Nat → List Nat → Except (Nat × DecodeReason) (List Nat)
  | _, [] => Except.ok []
  | 0, _ :: _ => Except.error (0, DecodeReason.invalid)
  | fuel + 1, b :: tl =>
    match decodeOne (b :: tl) with
    | Except.error r => Except.error (0, r)
    | Except.ok (cp, extra) =>
      match pyDecodeAux fuel (tl.drop extra) with
      | Except.ok cps => Except.ok (cp :: cps)
      | Except.error (s, r) => Except.error (extra + 1 + s, r)

/-- `bs.decode('utf-8')` in CPython: the decoded code points, or the
offset of the first invalid sequence together with the reason class. -/
def pyDecode (bs : List Nat) : Except (Nat × DecodeReason) (List Nat) :=
  pyDecodeAux bs.length bs

/-- Decode an input known to be valid, used to model
`input[:exc.start].decode()`, whose argument is the already-validated
prefix in front of the first error offset. -/
def pyDecodeForce (bs : List Nat) : List Nat :=
  match pyDecode bs with
  | Except.ok cps => cps
  | Except.error _ => []

/-- UTF-8 encoding of one code point, for `data.encode(encoding)`. -/
def utf8EncodeChar (c : Nat) : List Nat :=
  if c < 0x80 then [c]
  else if c < 0x800 then [0xC0 + c / 64, 0x80 + c % 64]
  else if c < 0x10000 then
    [0xE0 + c / 4096, 0x80 + (c / 64) % 64, 0x80 + c % 64]
  else
    [0xF0 + c / 262144, 0x80 + (c / 4096) % 64, 0x80 + (c / 64) % 64,
     0x80 + c % 64]

/-- UTF-8 encoding of a string of code points. -/
def utf8Encode (cs : List Nat) : List Nat :=
  (cs.map utf8EncodeChar).flatten

/-! ### The `_recv_partial_map` dictionary -/

/-- Dictionary lookup, `_recv_partial_map.get(datatype)`. -/
def mapLookup : List (Option Nat × List Nat) → Option Nat → Option (List Nat)
  | [], _ => none
  | (k, v) :: rest, key => if k = key then some v else mapLookup rest key

/-- Key removal, the effect of `_recv_partial_map.pop(datatype)` on the
dictionary. -/
def mapErase (m : List (Option Nat × List Nat)) (key : Option Nat) :
    List (Option Nat × List Nat) :=
  m.filter (fun p => p.1 ≠ key)

/-- Key update, `_recv_partial_map[datatype] = value`. -/
def mapInsert (m : List (Option Nat × List Nat)) (key : Option Nat)
    (v : List Nat) : List (Option Nat × List Nat) :=
  (key, v) :: mapErase m key

/-! ### Send path -/

/-- `SSHChannel._pause_resume_writing`. -/
def pause_resume_writing (ch : Channel) : Channel × List SessionCall :=
  if ch.send_paused then
    if ch.send_buf_len ≤ ch.send_low_water then
      ({ ch with send_paused := false }, [SessionCall.resume_writing])
    else (ch, [])
  else
    if ch.send_high_water < ch.send_buf_len then
      ({ ch with send_paused := true }, [SessionCall.pause_writing])
    else (ch, [])

/-- The packet `_flush_send_buf` emits for one chunk: `CHANNEL_DATA` when
`datatype is None`, `CHANNEL_EXTENDED_DATA` otherwise. -/
def mkDataPacket (datatype : Option Nat) (data : List Nat) : Packet :=
  match datatype with
  | none => Packet.data data
  | some t => Packet.extendedData t data

/-- Result of the `while` loop of `_flush_send_buf`. -/
structure FlushRes where
  window : Nat
  buflen : Nat
  buf : List (List Nat × Option Nat)
  pkts : List Packet
deriving DecidableEq, Repr

/-- The `while self._send_buf and self._send_window` loop of
`_flush_send_buf`: slice at most `min(send_window, send_pktsize)` bytes off
the head chunk, debit `send_buf_len` and `send_window`, emit the packet,
repeat.  `fuel` bounds the number of iterations; `flush_send_buf` passes
enough fuel for every positive `send_pktsize`. -/
def flushLoop (pktsize : Nat) :
    Nat → Nat → Nat → List (List Nat × Option Nat) → FlushRes
  | 0, window, buflen, buf => ⟨window, buflen, buf, []⟩
  | _ + 1, 0, buflen, buf => ⟨0, buflen, buf, []⟩
  | _ + 1, window, buflen, [] => ⟨window, buflen, [], []⟩
  | fuel + 1, w + 1, buflen, (b, datatype) :: rest =>
    let pkt := min (w + 1) pktsize
    if pkt < b.length then
      let data := b.take pkt
      let r := flushLoop pktsize fuel (w + 1 - data.length)
        (buflen - data.length) ((b.drop pkt, datatype) :: rest)
      ⟨r.window, r.buflen, r.buf, mkDataPacket datatype data :: r.pkts⟩
    else
      let r := flushLoop pktsize fuel (w + 1 - b.length) (buflen - b.length)
        rest
      ⟨r.window, r.buflen, r.buf, mkDataPacket datatype b :: r.pkts⟩

/-- Total bytes held in a send buffer. -/
def bufBytes (buf : List (List Nat × Option Nat)) : Nat :=
  (buf.map (fun p => p.1.length)).sum

/-- The tail of `_flush_send_buf` after the data loop and the hysteresis
re-evaluation: emit `EOF` or `CLOSE` if the buffer is now empty and one
is pending. -/
def flushTail (ch2 : Channel) (pkts : List Packet)
    (calls : List SessionCall) : Outcome :=
  if ch2.send_buf.isEmpty then
    if ch2.send_state = SendState.eof_pending then
      ⟨{ ch2 with send_state := SendState.eof_sent },
       pkts ++ [Packet.eof], calls, []⟩
    else if ch2.send_state = SendState.close_pending then
      ⟨{ ch2 with send_state := SendState.close_sent },
       pkts ++ [Packet.close], calls, []⟩
    else ⟨ch2, pkts, calls, []⟩
  else ⟨ch2, pkts, calls, []⟩

/-- `SSHChannel._flush_send_buf`: run the data loop, re-evaluate the
write-side pause hysteresis, then emit `EOF` or `CLOSE` if the buffer
drained with one pending. -/
def flush_send_buf (ch : Channel) : Outcome :=
  let r := flushLoop ch.send_pktsize
    (bufBytes ch.send_buf + ch.send_buf.length + 1)
    ch.send_window ch.send_buf_len ch.send_buf
  let pr := pause_resume_writing
    { ch with send_window := r.window, send_buf_len := r.buflen,
              send_buf := r.buf }
  flushTail pr.1 r.pkts pr.2

/-- `SSHChannel.write(data, datatype)`.  `data` is a string of code points
when `encoding` is set and bytes otherwise; the emptiness check happens
before encoding and `send_buf_len` grows by the encoded length, as in the
source. -/
def write (ch : Channel) (data : List Nat) (datatype : Option Nat) :
    Except ChanError Outcome :=
  if ch.send_state ≠ SendState.opened then
    Except.error ChanError.brokenPipe
  else if (match datatype with
           | some t => decide (t ∉ ch.write_datatypes)
           | none => false) then
    Except.error (ChanError.osError "Invalid extended data type")
  else if data.length = 0 then Except.ok ⟨ch, [], [], []⟩
  else
    let bs := if ch.encoding then utf8Encode data else data
    Except.ok (flush_send_buf
      { ch with send_buf := ch.send_buf ++ [(bs, datatype)],
                send_buf_len := ch.send_buf_len + bs.length })

/-- `SSHChannel.write_eof`. -/
def write_eof (ch : Channel) : Except ChanError Outcome :=
  if ch.send_state ≠ SendState.opened then
    Except.error ChanError.brokenPipe
  else Except.ok (flush_send_buf { ch with send_state := SendState.eof_pending })

/-- `SSHChannel.abort`: send `CHANNEL_CLOSE` at once unless one was
already sent.  Note that the source does not touch `_send_buf` or
`_send_buf_len` here. -/
def abort (ch : Channel) : Outcome :=
  if ch.send_state = SendState.close_sent ∨ ch.send_state = SendState.closed
  then ⟨ch, [], [], []⟩
  else ⟨{ ch with send_state := SendState.close_sent }, [Packet.close], [], []⟩

/-- `SSHChannel.close`: move to `close_pending` and flush, unless a close
is already pending or sent. -/
def close (ch : Channel) : Outcome :=
  if ch.send_state = SendState.close_pending ∨
     ch.send_state = SendState.close_sent ∨
     ch.send_state = SendState.closed then ⟨ch, [], [], []⟩
  else flush_send_buf { ch with send_state := SendState.close_pending }

/-- `SSHChannel._process_window_adjust`. -/
def process_window_adjust (ch : Channel) (adjust : Nat) :
    Except ChanError Outcome :=
  if ch.recv_state = RecvState.opened ∨
     ch.recv_state = RecvState.eof_received then
    Except.ok (flush_send_buf
      { ch with send_window := ch.send_window + adjust })
  else Except.error (ChanError.disconnect "Channel not open")

/-! ### Receive path -/

/-- The window bookkeeping at the top of the data branch of
`_deliver_data`: debit `recv_window`; if it fell below half of
`init_recv_window`, emit `WINDOW_ADJUST(init - current)` and restore it. -/
def deliverWindow (ch : Channel) (len : Nat) : Channel × List Packet :=
  let rw : Int := ch.recv_window - (len : Int)
  if 2 * rw < ch.init_recv_window then
    ({ ch with recv_window := ch.init_recv_window },
     [Packet.windowAdjust (ch.init_recv_window - rw).toNat])
  else ({ ch with recv_window := rw }, [])

/-- The `while input` decode loop of `_deliver_data`: returns the decoded
segments delivered to the session and the undecoded remainder left in
`input` when the loop stops (empty unless the input ends in a truncated
sequence).  A decode failure at offset zero that is not a truncation
raises the `Unicode decode error` disconnect. -/
def decodeLoopAux : Nat → List Nat → Except ChanError (List (List Nat) × List Nat)
  | _, [] => Except.ok ([], [])
  | 0, b :: tl => Except.ok ([], b :: tl)
  | fuel + 1, b :: tl =>
    match pyDecode (b :: tl) with
    | Except.ok cps => Except.ok ([cps], [])
    | Except.error (s, r) =>
      if 0 < s then
        match decodeLoopAux fuel ((b :: tl).drop s) with
        | Except.ok (segs, rem) =>
          Except.ok (pyDecodeForce ((b :: tl).take s) :: segs, rem)
        | Except.error e => Except.error e
      else if r = DecodeReason.unexpectedEnd then Except.ok ([], b :: tl)
      else Except.error (ChanError.disconnect "Unicode decode error")

/-- The decode loop entry point.  Each iteration that continues drops at
least one byte from `input`, so fuel equal to the input length never runs
out and the zero-fuel clause is unreachable. -/
def decodeLoop (input : List Nat) :
    Except ChanError (List (List Nat) × List Nat) :=
  decodeLoopAux input.length input

/-- The text branch of `_deliver_data`: pop the stashed tail for this
datatype, prepend it to the new bytes, run the decode loop, deliver each
decoded segment, and stash any remainder back under the datatype. -/
def deliverText (ch : Channel) (datatype : Option Nat) (input : List Nat) :
    Except ChanError (Channel × List SessionCall) :=
  match decodeLoop input with
  | Except.error e => Except.error e
  | Except.ok (segs, rem) =>
    Except.ok
      ({ ch with recv_partial_map :=
           if rem.isEmpty then mapErase ch.recv_partial_map datatype
           else mapInsert ch.recv_partial_map datatype rem },
       segs.map (fun s => SessionCall.data_received s datatype))

/-- `SSHChannel._deliver_data(data, datatype)`. -/
def deliver_data (ch : Channel) (d : ChanData) (datatype : Option Nat) :
    Except ChanError Outcome :=
  match d with
  | ChanData.eof =>
    if (mapLookup ch.recv_partial_map datatype).isSome then
      Except.error (ChanError.disconnect "Unicode decode error")
    else if ch.eof_ret then
      Except.ok ⟨ch, [], [SessionCall.eof_received], []⟩
    else
      let o := close ch
      Except.ok ⟨o.ch, o.pkts, SessionCall.eof_received :: o.calls, o.evs⟩
  | ChanData.bytes data =>
    let dw := deliverWindow ch data.length
    if ch.encoding then
      let input := (mapLookup ch.recv_partial_map datatype).getD [] ++ data
      match deliverText dw.1 datatype input with
      | Except.error e => Except.error e
      | Except.ok (ch2, calls) => Except.ok ⟨ch2, dw.2, calls, []⟩
    else
      Except.ok ⟨dw.1, dw.2, [SessionCall.data_received data datatype], []⟩

/-- `SSHChannel._accept_data(data, datatype)`. -/
def accept_data (ch : Channel) (d : ChanData) (datatype : Option Nat) :
    Except ChanError Outcome :=
  if (match d with
      | ChanData.bytes b => b.isEmpty
      | ChanData.eof => false) then Except.ok ⟨ch, [], [], []⟩
  else if ch.send_state = SendState.close_pending ∨
          ch.send_state = SendState.close_sent ∨
          ch.send_state = SendState.closed then Except.ok ⟨ch, [], [], []⟩
  else if (match d with
           | ChanData.bytes b => decide (ch.recv_window < (b.length : Int))
           | ChanData.eof => false) then
    Except.error (ChanError.disconnect "Window exceeded")
  else if ch.recv_paused then
    Except.ok ⟨{ ch with recv_buf := ch.recv_buf ++ [(d, datatype)] }, [], [], []⟩
  else deliver_data ch d datatype

/-- `SSHChannel._process_data`. -/
def process_data (ch : Channel) (data : List Nat) : Except ChanError Outcome :=
  if ch.recv_state ≠ RecvState.opened then
    Except.error (ChanError.disconnect "Channel not open for sending")
  else accept_data ch (ChanData.bytes data) none

/-- `SSHChannel._process_extended_data`. -/
def process_extended_data (ch : Channel) (datatype : Nat) (data : List Nat) :
    Except ChanError Outcome :=
  if ch.recv_state ≠ RecvState.opened then
    Except.error (ChanError.disconnect "Channel not open for sending")
  else if datatype ∉ ch.read_datatypes then
    Except.error (ChanError.disconnect "Invalid extended data type")
  else accept_data ch (ChanData.bytes data) (some datatype)

/-- `SSHChannel._process_eof`. -/
def process_eof (ch : Channel) : Except ChanError Outcome :=
  if ch.recv_state ≠ RecvState.opened then
    Except.error (ChanError.disconnect "Channel not open for sending")
  else accept_data { ch with recv_state := RecvState.eof_received }
    ChanData.eof none

/-- `SSHChannel.pause_reading`. -/
def pause_reading (ch : Channel) : Channel :=
  { ch with recv_paused := true }

/-- Deliver a list of buffered items in order. -/
def deliverAll (ch : Channel) :
    List (ChanData × Option Nat) → Except ChanError Outcome
  | [] => Except.ok ⟨ch, [], [], []⟩
  | (d, datatype) :: rest =>
    match deliver_data ch d datatype with
    | Except.error e => Except.error e
    | Except.ok o =>
      match deliverAll o.ch rest with
      | Except.error e => Except.error e
      | Except.ok o2 =>
        Except.ok ⟨o2.ch, o.pkts ++ o2.pkts, o.calls ++ o2.calls,
                   o.evs ++ o2.evs⟩

/-- `SSHChannel.resume_reading`: drain `recv_buf` in order.  The source
re-checks `_recv_paused` before each pop because a session callback may
pause again mid-drain; the modelled session records callbacks without
re-entering the channel, so the re-check cannot fire and the drain is a
plain fold over the buffer. -/
def resume_reading (ch : Channel) : Except ChanError Outcome :=
  if ch.recv_paused then
    deliverAll { ch with recv_paused := false, recv_buf := [] } ch.recv_buf
  else Except.ok ⟨ch, [], [], []⟩

/-! ### Open handshake, requests, responses, cleanup -/

/-- The synchronous prefix of the `SSHChannel._open` coroutine: create the
open waiter, send `CHANNEL_OPEN`, move to `open_sent`; the caller then
suspends on the waiter. -/
def openStart (ch : Channel) (w : Waiter) : Except ChanError Outcome :=
  if ch.send_state ≠ SendState.closed then
    Except.error (ChanError.osError "Channel already open")
  else
    Except.ok ⟨{ ch with open_waiter := some w,
                         send_state := SendState.open_sent },
               [Packet.channelOpen], [], []⟩

/-- `SSHChannel.process_open_confirmation` (the packet payload carried to
the waiter is not modelled). -/
def process_open_confirmation (ch : Channel) (send_window send_pktsize : Nat) :
    Except ChanError Outcome :=
  match ch.open_waiter with
  | none => Except.error (ChanError.disconnect "Channel not being opened")
  | some w =>
    Except.ok ⟨{ ch with send_window := send_window,
                         send_pktsize := send_pktsize,
                         send_state := SendState.opened,
                         recv_state := RecvState.opened,
                         open_waiter := none },
               [], [],
               if w.cancelled then [] else [WaiterEvent.openResolved w.id]⟩

/-- The synchronous prefix of `SSHChannel._make_request`: append a fresh
waiter to the FIFO and send the `want_reply` request; the caller then
suspends on the waiter. -/
def make_request (ch : Channel) (w : Waiter) (name : String) : Outcome :=
  ⟨{ ch with request_waiters := ch.request_waiters ++ [w] },
   [Packet.request name true], [], []⟩

/-- `SSHChannel._process_response` for `CHANNEL_SUCCESS` (`success = true`)
or `CHANNEL_FAILURE` (`success = false`). -/
def process_response (ch : Channel) (success : Bool) :
    Except ChanError Outcome :=
  if ch.send_state = SendState.opened ∨
     ch.send_state = SendState.eof_pending ∨
     ch.send_state = SendState.eof_sent ∨
     ch.send_state = SendState.close_pending ∨
     ch.send_state = SendState.close_sent then
    match ch.request_waiters with
    | [] => Except.error (ChanError.disconnect "Unexpected channel response")
    | w :: rest =>
      Except.ok ⟨{ ch with request_waiters := rest }, [], [],
                 if w.cancelled then []
                 else [WaiterEvent.requestDone w.id success]⟩
  else Except.error (ChanError.disconnect "Channel not open")

/-- The `for waiter in self._request_waiters: waiter.set_exception(exc)`
loop of `_cleanup`.  `Future.set_exception` on a cancelled future raises
`asyncio.InvalidStateError`, and the source does not guard against it
here (unlike the `close_waiters` loop below, `process_open_confirmation`
and `_process_response`). -/
def reqFailEvents : List Waiter → Except ChanError (List WaiterEvent)
  | [] => Except.ok []
  | w :: rest =>
    if w.cancelled then Except.error ChanError.invalidState
    else
      match reqFailEvents rest with
      | Except.ok evs => Except.ok (WaiterEvent.requestFailed w.id :: evs)
      | Except.error e => Except.error e

/-- `SSHChannel._cleanup(exc)`: fail a pending open waiter, fail every
request waiter, resolve every non-cancelled close waiter, notify the
session, deregister, and set both state machines to `closed`.  The
`set_exception` calls on the open waiter and on the request waiters are
unguarded in the source, so a cancelled waiter in either place makes the
whole cleanup raise `InvalidStateError`. -/
def cleanup (ch : Channel) : Except ChanError Outcome :=
  let openEvs : Except ChanError (List WaiterEvent) :=
    match ch.open_waiter with
    | some w =>
      if w.cancelled then Except.error ChanError.invalidState
      else Except.ok [WaiterEvent.openFailed w.id]
    | none => Except.ok []
  match openEvs with
  | Except.error e => Except.error e
  | Except.ok evs1 =>
    match reqFailEvents ch.request_waiters with
    | Except.error e => Except.error e
    | Except.ok evs2 =>
      let evs3 := ch.close_waiters.filterMap
        (fun w => if w.cancelled then none
                  else some (WaiterEvent.closeResolved w.id))
      let calls := if ch.session then [SessionCall.connection_lost] else []
      Except.ok ⟨{ ch with open_waiter := none, request_waiters := [],
                           close_waiters := [], session := false,
                           send_state := SendState.closed,
                           recv_state := RecvState.closed },
                 [], calls, evs1 ++ evs2 ++ evs3⟩

/-- `SSHChannel.wait_closed`: the source suspends on a fresh close waiter
only when a session object is installed (`if self._session:`); otherwise
the coroutine returns at once.  The boolean reports whether the caller
suspends. -/
def wait_closed (ch : Channel) (w : Waiter) : Channel × Bool :=
  if ch.session then
    ({ ch with close_waiters := ch.close_waiters ++ [w] }, true)
  else (ch, false)

/-! ### Traces of inbound packets and local calls -/

/-- Process a sequence of inbound `CHANNEL_DATA` packets, accumulating the
outbound packets and session callbacks. -/
def runDataPackets (ch : Channel) :
    List (List Nat) → Except ChanError Outcome
  | [] => Except.ok ⟨ch, [], [], []⟩
  | d :: rest =>
    match process_data ch d with
    | Except.error e => Except.error e
    | Except.ok o =>
      match runDataPackets o.ch rest with
      | Except.error e => Except.error e
      | Except.ok o2 =>
        Except.ok ⟨o2.ch, o.pkts ++ o2.pkts, o.calls ++ o2.calls,
                   o.evs ++ o2.evs⟩

/-- Events interleaving local `close()` calls with inbound
`CHANNEL_WINDOW_ADJUST` packets. -/
inductive Ev where
  | close
  | adjust (n : Nat)
deriving DecidableEq, Repr

/-- Run a trace of `close()` calls and inbound window adjustments. -/
def runEvs (ch : Channel) : List Ev → Except ChanError Outcome
  | [] => Except.ok ⟨ch, [], [], []⟩
  | Ev.close :: rest =>
    let o := close ch
    match runEvs o.ch rest with
    | Except.error e => Except.error e
    | Except.ok o2 =>
      Except.ok ⟨o2.ch, o.pkts ++ o2.pkts, o.calls ++ o2.calls,
                 o.evs ++ o2.evs⟩
  | Ev.adjust n :: rest =>
    match process_window_adjust ch n with
    | Except.error e => Except.error e
    | Except.ok o =>
      match runEvs o.ch rest with
      | Except.error e => Except.error e
      | Except.ok o2 =>
        Except.ok ⟨o2.ch, o.pkts ++ o2.pkts, o.calls ++ o2.calls,
                   o.evs ++ o2.evs⟩

/-- Issue a `want_reply` request per identifier, in order. -/
def issueAll (ch : Channel) : List Nat → Outcome
  | [] => ⟨ch, [], [], []⟩
  | i :: rest =>
    let o := make_request ch ⟨i, false⟩ "req"
    let o2 := issueAll o.ch rest
    ⟨o2.ch, o.pkts ++ o2.pkts, o.calls ++ o2.calls, o.evs ++ o2.evs⟩

/-- Process a sequence of `CHANNEL_SUCCESS` / `CHANNEL_FAILURE` responses
in arrival order. -/
def runResponses (ch : Channel) : List Bool → Except ChanError Outcome
  | [] => Except.ok ⟨ch, [], [], []⟩
  | r :: rest =>
    match process_response ch r with
    | Except.error e => Except.error e
    | Except.ok o =>
      match runResponses o.ch rest with
      | Except.error e => Except.error e
      | Except.ok o2 =>
        Except.ok ⟨o2.ch, o.pkts ++ o2.pkts, o.calls ++ o2.calls,
                   o.evs ++ o2.evs⟩

/-! ### Observation helpers -/

/-- Number of `CHANNEL_CLOSE` packets in a packet list. -/
def countClose : List Packet → Nat
  | [] => 0
  | Packet.close :: rest => countClose rest + 1
  | _ :: rest => countClose rest

/-- The `WINDOW_ADJUST` packets of a packet list, in order. -/
def windowAdjusts (ps : List Packet) : List Packet :=
  ps.filter (fun p => match p with
    | Packet.windowAdjust _ => true
    | _ => false)

/-- The `DATA` / `EXTENDED_DATA` packets of a packet list, in order. -/
def dataPackets (ps : List Packet) : List Packet :=
  ps.filter (fun p => match p with
    | Packet.data _ => true
    | Packet.extendedData _ _ => true
    | _ => false)

/-- Packets of a fallible outcome (empty on error). -/
def pktsOf (r : Except ChanError Outcome) : List Packet :=
  match r with
  | Except.ok o => o.pkts
  | Except.error _ => []

/-- Session callbacks of a fallible outcome (empty on error). -/
def callsOf (r : Except ChanError Outcome) : List SessionCall :=
  match r with
  | Except.ok o => o.calls
  | Except.error _ => []

/-- Channel state of a fallible outcome (the given fallback on error). -/
def chOf (r : Except ChanError Outcome) (fallback : Channel) : Channel :=
  match r with
  | Except.ok o => o.ch
  | Except.error _ => fallback

/-- Whether a fallible outcome succeeded (no exception raised). -/
def isOkE (r : Except ChanError Outcome) : Bool :=
  match r with
  | Except.ok _ => true
  | Except.error _ => false

/-- Bytes held in a receive buffer (EOF markers count zero). -/
def recvBufBytes (buf : List (ChanData × Option Nat)) : Nat :=
  (buf.map (fun p => match p.1 with
    | ChanData.bytes b => b.length
    | ChanData.eof => 0)).sum

/-! ### Concrete channels for the scenarios

The channels below are built through the modelled open handshake:
`initChannel`, then the synchronous prefix of `_open`, then
`process_open_confirmation`.  Reading starts paused, as in `__init__`. -/

/-- An established channel straight after the open confirmation: reading
is still paused and no session object is installed yet (in the source,
`create()` installs the session and calls `resume_reading()` only after
the confirmation arrives). -/
def mkChan (encoding : Bool) (window send_window send_pktsize : Nat) :
    Channel :=
  match openStart (initChannel encoding window 32768) ⟨0, false⟩ with
  | Except.error _ => initChannel encoding window 32768
  | Except.ok o =>
    match process_open_confirmation o.ch send_window send_pktsize with
    | Except.error _ => o.ch
    | Except.ok o2 => o2.ch

/-- An established channel after `create()` finished: the session is
installed, reading was resumed, and `STDERR` is a legal read datatype as
on a client channel. -/
def mkChanR (encoding : Bool) (window send_window send_pktsize : Nat) :
    Channel :=
  { mkChan encoding window send_window send_pktsize with
    session := true, recv_paused := false,
    read_datatypes := [EXTENDED_DATA_STDERR] }

/-- An established binary channel with initial receive window 100 on
which reading is still paused: the state of every channel between the
open confirmation and `resume_reading`, or after `pause_reading`. -/
def pausedChan : Channel := mkChan false 100 1000 32768

/-- A running binary channel with initial receive window 100. -/
def chanW100 : Channel := mkChanR false 100 1000 32768

/-- A running binary channel whose peer advertised a send window of
only 10 bytes. -/
def chanW10 : Channel := mkChanR false 100 10 32768

/-- The running channel after the local side called `abort()`. -/
def abortedChan : Channel := (abort chanW100).ch

/-- A channel whose `_open` was sent but not yet answered. -/
def chanMidOpen : Channel :=
  chOf (openStart (initChannel false 100 32768) ⟨0, false⟩)
    (initChannel false 100 32768)

/-- A running UTF-8 channel. -/
def chanU : Channel := mkChanR true 100 1000 32768

/-- The UTF-8 channel holding a stashed partial code point for the
`STDERR` extended datatype. -/
def chanUtail : Channel :=
  { chanU with recv_partial_map := [(some EXTENDED_DATA_STDERR, [0xE2])] }

/-- A running channel with one externally cancelled request waiter. -/
def chanC7req : Channel :=
  { chanW100 with request_waiters := [⟨5, true⟩] }

/-- A mid-open channel whose open waiter was externally cancelled. -/
def chanC7open : Channel :=
  { chanMidOpen with open_waiter := some ⟨0, true⟩ }

/-- A running channel with one cancelled and one pending close waiter. -/
def chanC7close : Channel :=
  { chanW100 with close_waiters := [⟨7, true⟩, ⟨8, false⟩] }

/-- C1: the claim says the channel raises a protocol error whenever the
peer overruns `recv_window`, including while reading is paused or while a
close is pending or sent.  The code does not: while paused,
`_accept_data` buffers without debiting `recv_window`, so two 100-byte
packets against a 100-byte window are both accepted (200 bytes buffered,
window untouched, no error); and once a close was sent, data packets are
dropped before the window check, again without any error.  This theorem
evaluates the code at both failing inputs. -/
theorem c1_window_overrun_not_detected :
    runDataPackets pausedChan
        [List.replicate 100 65, List.replicate 100 66] =
      Except.ok ⟨{ pausedChan with recv_buf :=
          [(ChanData.bytes (List.replicate 100 65), none),
           (ChanData.bytes (List.replicate 100 66), none)] }, [], [], []⟩ ∧
    pausedChan.init_recv_window = 100 ∧
    pausedChan.recv_paused = true ∧
    recvBufBytes [(ChanData.bytes (List.replicate 100 65), none),
      (ChanData.bytes (List.replicate 100 66), none)] = 200 ∧
    abortedChan.send_state = SendState.close_sent ∧
    process_data abortedChan (List.replicate 100 65) =
      Except.ok ⟨abortedChan, [], [], []⟩ := by decide

/-- C2: the claim (and the docstring of `abort`) says buffered data is
discarded, `send_buf_len` ends at 0, and no `DATA` follows the `CLOSE`.
The code emits exactly one `CLOSE`, but leaves the 10 unsent bytes in
the buffer (`send_buf_len = 10`), and a subsequent `WINDOW_ADJUST` from
the peer flushes them as a `DATA` packet after the `CLOSE`.  This
theorem evaluates the code at the failing input: send window 10, write
of 20 bytes, `abort()`, then `WINDOW_ADJUST(10)`. -/
theorem c2_abort_keeps_buffer :
    pktsOf (write chanW10 (List.replicate 20 120) none) =
      [Packet.data (List.replicate 10 120)] ∧
    (abort (chOf (write chanW10 (List.replicate 20 120) none) chanW10)).pkts =
      [Packet.close] ∧
    (abort (chOf (write chanW10 (List.replicate 20 120) none)
        chanW10)).ch.send_buf_len = 10 ∧
    pktsOf (process_window_adjust
        (abort (chOf (write chanW10 (List.replicate 20 120) none)
          chanW10)).ch 10) =
      [Packet.data (List.replicate 10 120)] := by decide

/-- C3 counterexample: with `init_recv_window = 100` and four 30-byte
packets, the claim says exactly one `WINDOW_ADJUST`, carrying 90, emitted
after the third packet.  The code instead emits `WINDOW_ADJUST(60)`
already during the second packet (the debited window 40 is below
`init / 2 = 50`), and a second `WINDOW_ADJUST(60)` during the fourth. -/
theorem c3_counterexample :
    windowAdjusts (pktsOf (runDataPackets chanW100
        [List.replicate 30 1, List.replicate 30 2])) =
      [Packet.windowAdjust 60] ∧
    windowAdjusts (pktsOf (runDataPackets chanW100
        [List.replicate 30 1, List.replicate 30 2, List.replicate 30 3])) =
      [Packet.windowAdjust 60] := by decide

/-- C3 (amended): with `init_recv_window = 100`, reading not paused, and
four inbound 30-byte `DATA` packets, the channel emits no adjust during
the first packet, exactly one `WINDOW_ADJUST(60)` during the second
(cumulative 60, the first point where the debited window drops below
`init / 2`), none during the third, and a second `WINDOW_ADJUST(60)`
during the fourth; each adjust restores `recv_window` to 100. -/
theorem c3_window_halving :
    windowAdjusts (pktsOf (runDataPackets chanW100
        [List.replicate 30 1])) = [] ∧
    windowAdjusts (pktsOf (runDataPackets chanW100
        [List.replicate 30 1, List.replicate 30 2])) =
      [Packet.windowAdjust 60] ∧
    (chOf (runDataPackets chanW100
        [List.replicate 30 1, List.replicate 30 2]) chanW100).recv_window
      = 100 ∧
    windowAdjusts (pktsOf (runDataPackets chanW100
        [List.replicate 30 1, List.replicate 30 2, List.replicate 30 3])) =
      [Packet.windowAdjust 60] ∧
    windowAdjusts (pktsOf (runDataPackets chanW100
        [List.replicate 30 1, List.replicate 30 2, List.replicate 30 3,
         List.replicate 30 4])) =
      [Packet.windowAdjust 60, Packet.windowAdjust 60] ∧
    (chOf (runDataPackets chanW100
        [List.replicate 30 1, List.replicate 30 2, List.replicate 30 3,
         List.replicate 30 4]) chanW100).recv_window = 100 := by decide

/-- C6: the claim says `wait_closed()` returns immediately exactly when
the channel is already closed, regardless of session presence.  The code
instead returns immediately exactly when no session object is installed:
on a channel whose `CHANNEL_OPEN` is outstanding (`open_sent`, open
waiter pending, teardown has not run), `wait_closed` returns at once
without suspending, although the channel is not closed. -/
theorem c6_wait_closed_ignores_state :
    (wait_closed chanMidOpen ⟨1, false⟩).2 = false ∧
    (wait_closed chanMidOpen ⟨1, false⟩).1 = chanMidOpen ∧
    chanMidOpen.send_state = SendState.open_sent ∧
    chanMidOpen.open_waiter = some ⟨0, false⟩ ∧
    chanMidOpen.session = false := by decide

/-- C7: the claim says cleanup completes without raising even when
waiters were cancelled externally.  The code guards only the
`close_waiters` loop with `cancelled()`: `set_exception` on a cancelled
open waiter or request waiter raises `asyncio.InvalidStateError` and
aborts the cleanup.  A cancelled close waiter is tolerated and skipped,
as the claim describes. -/
theorem c7_cleanup_raises_on_cancelled_waiter :
    cleanup chanC7req = Except.error ChanError.invalidState ∧
    cleanup chanC7open = Except.error ChanError.invalidState ∧
    cleanup chanC7close =
      Except.ok ⟨{ chanC7close with
                   close_waiters := [], session := false,
                   send_state := SendState.closed,
                   recv_state := RecvState.closed },
                 [], [SessionCall.connection_lost],
                 [WaiterEvent.closeResolved 8]⟩ := by decide

/-- C9 counterexample: the claim says a protocol error is raised if EOF
is delivered while a `recv_partial_map` tail exists for ANY datatype.  The
code checks only the datatype of the EOF delivery itself (`None`): with
a stashed partial code point for the `STDERR` datatype, an inbound
`CHANNEL_EOF` is accepted without error and `eof_received()` is called. -/
theorem c9_counterexample :
    mapLookup chanUtail.recv_partial_map (some EXTENDED_DATA_STDERR) =
      some [0xE2] ∧
    process_eof chanUtail =
      Except.ok ⟨{ chanUtail with recv_state := RecvState.eof_received },
                 [], [SessionCall.eof_received], []⟩ := by decide

/-- C10: an inbound `CHANNEL_DATA` or `CHANNEL_EXTENDED_DATA` packet with
an empty payload is silently ignored by `_accept_data` (`if not data:
return`): the channel state is returned unchanged, no window debit, no
buffering, no `WINDOW_ADJUST`, no session callback.  The
`process_data` / `process_extended_data` forms assume the packet passed
the channel-state and datatype checks that precede the payload check. -/
theorem c10_empty_data_ignored :
    (∀ (ch : Channel) (datatype : Option Nat),
      accept_data ch (ChanData.bytes []) datatype =
        Except.ok ⟨ch, [], [], []⟩) ∧
    (∀ ch : Channel, ch.recv_state = RecvState.opened →
      process_data ch [] = Except.ok ⟨ch, [], [], []⟩) ∧
    (∀ (ch : Channel) (t : Nat), ch.recv_state = RecvState.opened →
      t ∈ ch.read_datatypes →
      process_extended_data ch t [] = Except.ok ⟨ch, [], [], []⟩) := by
  refine ⟨fun ch datatype => by simp [accept_data], fun ch h => ?_,
    fun ch t h ht => ?_⟩
  · simp [process_data, h, accept_data]
  · simp [process_extended_data, h, ht, accept_data]

/-- Witness for C10 at a concrete channel and the `STDERR` datatype. -/
theorem c10_empty_data_ignored_witness :
    chanW100.recv_state = RecvState.opened ∧
    EXTENDED_DATA_STDERR ∈ chanW100.read_datatypes ∧
    process_data chanW100 [] = Except.ok ⟨chanW100, [], [], []⟩ ∧
    process_extended_data chanW100 EXTENDED_DATA_STDERR [] =
      Except.ok ⟨chanW100, [], [], []⟩ :=
  ⟨by decide, by decide,
   c10_empty_data_ignored.2.1 chanW100 (by decide),
   c10_empty_data_ignored.2.2 chanW100 EXTENDED_DATA_STDERR (by decide)
     (by decide)⟩

/-! ### Window accounting of the send path (C4) -/

/-- Per-packet accounting for an emitted packet sequence: starting from
send window `w` and buffered length `l`, every `DATA` /
`EXTENDED_DATA` payload is at most `min pktsize w₀` for the window `w₀`
in force before that emission, and the emission debits the window and
the buffered length by exactly the payload length; `EOF` / `CLOSE`
control packets change neither.  The final window and buffered length
are `w'` and `l'`. -/
inductive EmitsOk (pktsize : Nat) : Nat → Nat → List Packet → Nat → Nat → Prop where
  | nil (w l : Nat) : EmitsOk pktsize w l [] w l
  | emit {w l w' l' : Nat} {rest : List Packet} (datatype : Option Nat)
      (data : List Nat) (hlen : data.length ≤ min pktsize w)
      (h : EmitsOk pktsize (w - data.length) (l - data.length) rest w' l') :
      EmitsOk pktsize w l (mkDataPacket datatype data :: rest) w' l'
  | ctl {w l w' l' : Nat} {rest : List Packet} (p : Packet)
      (hp : p = Packet.eof ∨ p = Packet.close)
      (h : EmitsOk pktsize w l rest w' l') :
      EmitsOk pktsize w l (p :: rest) w' l'

/-- Chaining of the accounting relation. -/
theorem EmitsOk.append {pktsize w l w' l' w'' l'' : Nat}
    {ps qs : List Packet} (h1 : EmitsOk pktsize w l ps w' l')
    (h2 : EmitsOk pktsize w' l' qs w'' l'') :
    EmitsOk pktsize w l (ps ++ qs) w'' l'' := by
  induction h1 with
  | nil => exact h2
  | emit datatype data hlen _ ih =>
    exact EmitsOk.emit datatype data hlen (ih h2)
  | ctl p hp _ ih => exact EmitsOk.ctl p hp (ih h2)

/-- The data loop of `_flush_send_buf` satisfies the accounting relation
for any fuel, window, buffered length and buffer. -/
theorem flushLoop_emits (pktsize : Nat) : ∀ (fuel w l : Nat)
    (buf : List (List Nat × Option Nat)),
    EmitsOk pktsize w l (flushLoop pktsize fuel w l buf).pkts
      (flushLoop pktsize fuel w l buf).window
      (flushLoop pktsize fuel w l buf).buflen := by
  intro fuel
  induction fuel with
  | zero => intro w l buf; exact EmitsOk.nil w l
  | succ n ih =>
    intro w l buf
    match w, buf with
    | 0, buf =>
      simp only [flushLoop]
      exact EmitsOk.nil 0 l
    | w + 1, [] =>
      simp only [flushLoop]
      exact EmitsOk.nil (w + 1) l
    | w + 1, (b, datatype) :: rest =>
      by_cases hlt : min (w + 1) pktsize < b.length
      · simp only [flushLoop, if_pos hlt]
        refine EmitsOk.emit datatype _ ?_ (ih _ _ _)
        simp only [List.length_take]
        omega
      · simp only [flushLoop, if_neg hlt]
        refine EmitsOk.emit datatype _ ?_ (ih _ _ _)
        omega

/-- `pause_resume_writing` touches only `send_paused`. -/
theorem pause_resume_writing_fields (ch : Channel) :
    (pause_resume_writing ch).1.send_window = ch.send_window ∧
    (pause_resume_writing ch).1.send_buf_len = ch.send_buf_len ∧
    (pause_resume_writing ch).1.send_buf = ch.send_buf ∧
    (pause_resume_writing ch).1.send_state = ch.send_state := by
  unfold pause_resume_writing
  split_ifs <;> exact ⟨rfl, rfl, rfl, rfl⟩

/-- `flushTail` never changes the send window or the buffered length,
and only appends control packets to the packet list. -/
theorem flushTail_emits {pktsize w l : Nat} {pkts : List Packet}
    (c : Channel) (calls : List SessionCall)
    (h : EmitsOk pktsize w l pkts c.send_window c.send_buf_len) :
    EmitsOk pktsize w l (flushTail c pkts calls).pkts
      (flushTail c pkts calls).ch.send_window
      (flushTail c pkts calls).ch.send_buf_len := by
  unfold flushTail
  split_ifs <;>
    simp only [] <;>
    first
      | exact h.append (EmitsOk.ctl Packet.eof (Or.inl rfl) (EmitsOk.nil _ _))
      | exact h.append (EmitsOk.ctl Packet.close (Or.inr rfl) (EmitsOk.nil _ _))
      | exact h

/-- C4: for every outbound `CHANNEL_DATA` or `CHANNEL_EXTENDED_DATA`
packet emitted by `_flush_send_buf` (the single emission site of the
send path), the payload length is at most
`min(send_pktsize, send_window-before-emission)`, and the emission
debits `send_window` and `send_buf_len` by exactly the payload length;
the trailing `EOF` / `CLOSE` control packets change neither.  Stated by
the accounting relation `EmitsOk` from the state before the flush to
the state after it. -/
theorem c4_outbound_data_window_accounting (ch : Channel) :
    EmitsOk ch.send_pktsize ch.send_window ch.send_buf_len
      (flush_send_buf ch).pkts
      (flush_send_buf ch).ch.send_window
      (flush_send_buf ch).ch.send_buf_len := by
  have base := flushLoop_emits ch.send_pktsize
    (bufBytes ch.send_buf + ch.send_buf.length + 1)
    ch.send_window ch.send_buf_len ch.send_buf
  unfold flush_send_buf
  refine flushTail_emits _ _ ?_
  rw [(pause_resume_writing_fields _).1, (pause_resume_writing_fields _).2.1]
  exact base

/-! ### FIFO request/response matching (C5) -/

/-- `issueAll` appends one fresh (non-cancelled) waiter per request to
the FIFO, in issue order, and changes nothing else. -/
theorem issueAll_ch : ∀ (ids : List Nat) (ch : Channel),
    (issueAll ch ids).ch =
      { ch with request_waiters :=
          ch.request_waiters ++ ids.map (fun i => ⟨i, false⟩) } := by
  intro ids
  induction ids with
  | nil => intro ch; simp [issueAll]
  | cons i rest ih =>
    intro ch
    simp [issueAll, make_request, ih, List.append_assoc]

/-- One response on a non-empty FIFO pops the head waiter and, when it
was not cancelled, completes it with the response result. -/
theorem process_response_cons (ch : Channel) (w : Waiter) (ws : List Waiter)
    (h : ch.send_state = SendState.opened)
    (hw : ch.request_waiters = w :: ws) (hwc : w.cancelled = false)
    (r : Bool) :
    process_response ch r =
      Except.ok ⟨{ ch with request_waiters := ws }, [], [],
                 [WaiterEvent.requestDone w.id r]⟩ := by
  simp [process_response, h, hw, hwc]

/-- Responses drain the waiter FIFO from the front: each response pops
the head waiter and completes it with the response result. -/
theorem runResponses_fifo : ∀ (rs : List Bool) (ch : Channel),
    ch.send_state = SendState.opened →
    (∀ w ∈ ch.request_waiters, w.cancelled = false) →
    rs.length ≤ ch.request_waiters.length →
    runResponses ch rs =
      Except.ok ⟨{ ch with request_waiters :=
          ch.request_waiters.drop rs.length },
        [], [],
        List.zipWith (fun w r => WaiterEvent.requestDone w.id r)
          (ch.request_waiters.take rs.length) rs⟩ := by
  intro rs
  induction rs with
  | nil => intro ch h hc hl; simp [runResponses]
  | cons r rest ih =>
    intro ch h hc hl
    match hw : ch.request_waiters with
    | [] => rw [hw] at hl; simp at hl
    | w :: ws =>
      have hwc : w.cancelled = false := by
        refine hc w ?_
        rw [hw]
        exact List.mem_cons_self w ws
      have hrec := ih { ch with request_waiters := ws } (by simpa using h)
        (by
          intro x hx
          refine hc x ?_
          rw [hw]
          exact List.mem_cons_of_mem w hx)
        (by
          rw [hw] at hl
          simpa using Nat.le_of_succ_le_succ hl)
      have hpr := process_response_cons ch w ws h hw hwc r
      simp only [runResponses, hpr, hrec, hw]
      rfl

/-- Completing freshly issued waiters reports the issued identifiers. -/
theorem zipWith_requestDone (l : List Nat) (rs : List Bool) (n : Nat) :
    List.zipWith (fun (w : Waiter) r => WaiterEvent.requestDone w.id r)
      (List.take n (l.map (fun i => ⟨i, false⟩))) rs =
    List.zipWith (fun i r => WaiterEvent.requestDone i r) (List.take n l) rs := by
  rw [← List.map_take, List.zipWith_map_left]

/-- C5: for any number of in-flight `want_reply` requests issued through
`make_request`, the i-th `CHANNEL_SUCCESS` / `CHANNEL_FAILURE` response
received completes the i-th request issued, in FIFO order, with result
`true` for `SUCCESS` and `false` for `FAILURE`; a response arriving with
no pending request raises the `Unexpected channel response` protocol
error. -/
theorem c5_fifo_request_response :
    (∀ (ch : Channel) (ids : List Nat) (rs : List Bool),
      ch.send_state = SendState.opened →
      ch.request_waiters = [] →
      rs.length ≤ ids.length →
      runResponses (issueAll ch ids).ch rs =
        Except.ok ⟨{ ch with request_waiters :=
            ((ids.drop rs.length).map (fun i => ⟨i, false⟩)) },
          [], [],
          List.zipWith (fun i r => WaiterEvent.requestDone i r)
            (ids.take rs.length) rs⟩) ∧
    (∀ (ch : Channel) (r : Bool),
      ch.send_state = SendState.opened →
      ch.request_waiters = [] →
      process_response ch r =
        Except.error (ChanError.disconnect "Unexpected channel response")) := by
  constructor
  · intro ch ids rs h hrw hl
    have hiss := issueAll_ch ids ch
    rw [hrw, List.nil_append] at hiss
    rw [hiss]
    have hfifo := runResponses_fifo rs
      { ch with request_waiters := ids.map (fun i => ⟨i, false⟩) }
      (by simpa using h)
      (by
        intro x hx
        simp only [List.mem_map] at hx
        obtain ⟨i, _, hi⟩ := hx
        rw [← hi])
      (by simpa using hl)
    rw [hfifo]
    simp [List.map_take, List.map_drop, zipWith_requestDone]
  · intro ch r h hrw
    simp [process_response, h, hrw]

/-- Witness for C5: three requests issued, two responses received; the
first two requests complete with the results of the first two responses
and the third stays pending. -/
theorem c5_fifo_request_response_witness :
    chanW100.send_state = SendState.opened ∧
    chanW100.request_waiters = [] ∧
    (([true, false] : List Bool).length ≤ ([10, 11, 12] : List Nat).length) ∧
    runResponses (issueAll chanW100 [10, 11, 12]).ch [true, false] =
      Except.ok ⟨{ chanW100 with request_waiters :=
          ((([10, 11, 12] : List Nat).drop
            ([true, false] : List Bool).length).map (fun i => ⟨i, false⟩)) },
        [], [],
        List.zipWith (fun i r => WaiterEvent.requestDone i r)
          (([10, 11, 12] : List Nat).take ([true, false] : List Bool).length)
          [true, false]⟩ :=
  ⟨by decide, by decide, by decide,
   c5_fifo_request_response.1 chanW100 [10, 11, 12] [true, false]
     (by decide) (by decide) (by decide)⟩

/-! ### Close idempotence and single `CHANNEL_CLOSE` (C8) -/

/-- Number of `CHANNEL_CLOSE` packets already emitted, as a function of
the send state, along traces built from `close()` and window adjusts. -/
def closeFlag (s : SendState) : Nat :=
  if s = SendState.close_sent then 1 else 0

/-- The send-side states reachable from `opened` by `close()` calls and
window adjusts, together with the fact that a pending close always has
unsent data left (otherwise the flush would have emitted the `CLOSE`). -/
def GoodState (ch : Channel) : Prop :=
  (ch.send_state = SendState.opened ∨
   ch.send_state = SendState.close_pending ∨
   ch.send_state = SendState.close_sent) ∧
  (ch.send_state = SendState.close_pending → ch.send_buf ≠ [])

theorem countClose_append : ∀ ps qs : List Packet,
    countClose (ps ++ qs) = countClose ps + countClose qs := by
  intro ps qs
  induction ps with
  | nil => simp [countClose]
  | cons p rest ih => cases p <;> simp [countClose, ih] <;> omega

/-- The data loop emits only `DATA` / `EXTENDED_DATA` packets. -/
theorem flushLoop_no_close (pktsize : Nat) : ∀ (fuel w l : Nat)
    (buf : List (List Nat × Option Nat)),
    countClose (flushLoop pktsize fuel w l buf).pkts = 0 := by
  intro fuel
  induction fuel with
  | zero => intro w l buf; simp [flushLoop, countClose]
  | succ n ih =>
    intro w l buf
    match w, buf with
    | 0, buf => simp [flushLoop, countClose]
    | w + 1, [] => simp [flushLoop, countClose]
    | w + 1, (b, datatype) :: rest =>
      by_cases hlt : min (w + 1) pktsize < b.length <;>
        cases datatype <;>
          simp [flushLoop, hlt, mkDataPacket, countClose, ih]

/-- Case analysis of `flushTail` away from `eof_pending`: either nothing
happens beyond the passed-through packets, or a pending close fires on
the drained buffer. -/
theorem flushTail_spec (c : Channel) (pkts : List Packet)
    (calls : List SessionCall) (hne : c.send_state ≠ SendState.eof_pending) :
    ((flushTail c pkts calls).ch.send_state = c.send_state ∧
     (flushTail c pkts calls).pkts = pkts ∧
     (flushTail c pkts calls).ch.send_buf = c.send_buf ∧
     (c.send_state = SendState.close_pending → c.send_buf ≠ [])) ∨
    (c.send_state = SendState.close_pending ∧
     (flushTail c pkts calls).ch.send_state = SendState.close_sent ∧
     (flushTail c pkts calls).pkts = pkts ++ [Packet.close] ∧
     (flushTail c pkts calls).ch.send_buf = []) := by
  by_cases hemp : c.send_buf.isEmpty
  · by_cases hcp : c.send_state = SendState.close_pending
    · have heq : flushTail c pkts calls =
          ⟨{ c with send_state := SendState.close_sent },
           pkts ++ [Packet.close], calls, []⟩ := by
        unfold flushTail
        rw [if_pos hemp, if_neg (by simp [hcp]), if_pos hcp]
      rw [heq]
      right
      exact ⟨hcp, rfl, rfl, by simpa using hemp⟩
    · have heq : flushTail c pkts calls = ⟨c, pkts, calls, []⟩ := by
        unfold flushTail
        rw [if_pos hemp, if_neg hne, if_neg hcp]
      rw [heq]
      left
      exact ⟨rfl, rfl, rfl, fun hc => absurd hc hcp⟩
  · have heq : flushTail c pkts calls = ⟨c, pkts, calls, []⟩ := by
      unfold flushTail
      rw [if_neg hemp]
    rw [heq]
    left
    refine ⟨rfl, rfl, rfl, fun _ hb => hemp ?_⟩
    simp [hb]

/-- Case analysis of a whole `_flush_send_buf` call away from
`eof_pending`: the send state is preserved and no `CLOSE` is emitted,
or a pending close fires exactly once on the drained buffer. -/
theorem flush_send_buf_spec (ch : Channel)
    (hne : ch.send_state ≠ SendState.eof_pending) :
    ((flush_send_buf ch).ch.send_state = ch.send_state ∧
     countClose (flush_send_buf ch).pkts = 0 ∧
     ((flush_send_buf ch).ch.send_state = SendState.close_pending →
       (flush_send_buf ch).ch.send_buf ≠ [])) ∨
    (ch.send_state = SendState.close_pending ∧
     (flush_send_buf ch).ch.send_state = SendState.close_sent ∧
     countClose (flush_send_buf ch).pkts = 1) := by
  simp only [flush_send_buf]
  set r := flushLoop ch.send_pktsize
    (bufBytes ch.send_buf + ch.send_buf.length + 1)
    ch.send_window ch.send_buf_len ch.send_buf with hr
  set c1 : Channel :=
    { ch with send_window := r.window, send_buf_len := r.buflen,
              send_buf := r.buf } with hc1
  have hst : (pause_resume_writing c1).1.send_state = ch.send_state :=
    (pause_resume_writing_fields c1).2.2.2
  have hnc : countClose r.pkts = 0 := by
    rw [hr]
    exact flushLoop_no_close ch.send_pktsize _ _ _ _
  rcases flushTail_spec (pause_resume_writing c1).1 r.pkts
      (pause_resume_writing c1).2 (by rw [hst]; exact hne) with
    ⟨h1, h2, h3, h4⟩ | ⟨h1, h2, h3, h4⟩
  · left
    refine ⟨by rw [h1, hst], by rw [h2]; exact hnc, fun hcp => ?_⟩
    rw [h3]
    exact h4 (h1.symm.trans hcp)
  · right
    refine ⟨by rw [← hst]; exact h1, h2, ?_⟩
    rw [h3, countClose_append, hnc]
    simp [countClose]

/-- Effect of one `close()` call on a reachable state: the result is
reachable, never `opened`, and the emitted `CLOSE` count matches the
`closeFlag` difference. -/
theorem close_step (ch : Channel) (hg : GoodState ch) :
    GoodState (close ch).ch ∧
    countClose (close ch).pkts + closeFlag ch.send_state =
      closeFlag (close ch).ch.send_state ∧
    (close ch).ch.send_state ≠ SendState.opened := by
  rcases hg with ⟨hs, hbuf⟩
  rcases hs with h | h | h
  · have hcl : close ch =
        flush_send_buf { ch with send_state := SendState.close_pending } := by
      unfold close
      rw [if_neg (by simp [h])]
    rcases flush_send_buf_spec
        { ch with send_state := SendState.close_pending } (by simp) with
      ⟨h1, h2, h3⟩ | ⟨_, h2, h3⟩
    · have h1' : (flush_send_buf
          { ch with send_state := SendState.close_pending }).ch.send_state =
          SendState.close_pending := h1
      rw [hcl]
      refine ⟨⟨Or.inr (Or.inl h1'), h3⟩, ?_, by simp [h1']⟩
      rw [h2, h1']
      simp [closeFlag, h]
    · rw [hcl]
      refine ⟨⟨Or.inr (Or.inr h2), fun hc => ?_⟩, ?_, by simp [h2]⟩
      · rw [h2] at hc
        cases hc
      · rw [h3, h2]
        simp [closeFlag, h]
  · have hcl : close ch = ⟨ch, [], [], []⟩ := by
      unfold close
      rw [if_pos (Or.inl h)]
    rw [hcl]
    exact ⟨⟨Or.inr (Or.inl h), hbuf⟩, by simp [countClose], by simp [h]⟩
  · have hcl : close ch = ⟨ch, [], [], []⟩ := by
      unfold close
      rw [if_pos (Or.inr (Or.inl h))]
    rw [hcl]
    exact ⟨⟨Or.inr (Or.inr h), hbuf⟩, by simp [countClose], by simp [h]⟩

/-- Effect of one inbound window adjust on a reachable state. -/
theorem adjust_step (ch : Channel) (n : Nat) (o : Outcome)
    (hg : GoodState ch)
    (hok : process_window_adjust ch n = Except.ok o) :
    GoodState o.ch ∧
    countClose o.pkts + closeFlag ch.send_state =
      closeFlag o.ch.send_state ∧
    (o.ch.send_state = ch.send_state ∨
     (ch.send_state = SendState.close_pending ∧
      o.ch.send_state = SendState.close_sent)) := by
  rcases hg with ⟨hs, hbuf⟩
  have hne : ch.send_state ≠ SendState.eof_pending := by
    rcases hs with h | h | h <;> simp [h]
  by_cases hrc : ch.recv_state = RecvState.opened ∨
      ch.recv_state = RecvState.eof_received
  · have ho : o = flush_send_buf { ch with send_window := ch.send_window + n } := by
      unfold process_window_adjust at hok
      rw [if_pos hrc] at hok
      exact (Except.ok.inj hok).symm
    rcases flush_send_buf_spec { ch with send_window := ch.send_window + n }
        (hne) with ⟨h1, h2, h3⟩ | ⟨h1, h2, h3⟩
    · have h1' : (flush_send_buf
          { ch with send_window := ch.send_window + n }).ch.send_state =
          ch.send_state := h1
      subst ho
      refine ⟨⟨by rw [h1']; exact hs, h3⟩, ?_, Or.inl h1'⟩
      rw [h1', h2]
      omega
    · have h1' : ch.send_state = SendState.close_pending := h1
      subst ho
      refine ⟨⟨Or.inr (Or.inr h2), fun hc => ?_⟩, ?_, Or.inr ⟨h1', h2⟩⟩
      · rw [h2] at hc
        cases hc
      · rw [h3, h2, h1']
        simp [closeFlag]
  · exfalso
    unfold process_window_adjust at hok
    rw [if_neg hrc] at hok
    cases hok

/-- Along any trace of `close()` calls and window adjusts from a
reachable state, the `CLOSE` count equals the `closeFlag` difference,
reachability is preserved, and the channel never returns to `opened`. -/
theorem runEvs_spec : ∀ (evs : List Ev) (ch : Channel) (o : Outcome),
    GoodState ch → runEvs ch evs = Except.ok o →
    GoodState o.ch ∧
    countClose o.pkts + closeFlag ch.send_state =
      closeFlag o.ch.send_state ∧
    (ch.send_state ≠ SendState.opened →
      o.ch.send_state ≠ SendState.opened) ∧
    (Ev.close ∈ evs → o.ch.send_state ≠ SendState.opened) := by
  intro evs
  induction evs with
  | nil =>
    intro ch o hg hok
    simp only [runEvs] at hok
    have hin : (⟨ch, [], [], []⟩ : Outcome) = o := Except.ok.inj hok
    subst hin
    exact ⟨hg, by simp [countClose], fun h => h, by simp⟩
  | cons e rest ih =>
    intro ch o hg hok
    cases e with
    | close =>
      cases hrec : runEvs (close ch).ch rest with
      | error err =>
        simp only [runEvs, hrec] at hok
        exact Except.noConfusion hok
      | ok o2 =>
        simp only [runEvs, hrec] at hok
        have hin : (⟨o2.ch, (close ch).pkts ++ o2.pkts,
            (close ch).calls ++ o2.calls, (close ch).evs ++ o2.evs⟩ :
            Outcome) = o := Except.ok.inj hok
        subst hin
        dsimp only
        obtain ⟨hg1, hcount1, hno1⟩ := close_step ch hg
        obtain ⟨hg2, hcount2, hmono2, _⟩ := ih (close ch).ch o2 hg1 hrec
        have hfin : o2.ch.send_state ≠ SendState.opened := hmono2 hno1
        refine ⟨hg2, ?_, fun _ => hfin, fun _ => hfin⟩
        rw [countClose_append]
        omega
    | adjust n =>
      cases hadj : process_window_adjust ch n with
      | error err =>
        simp only [runEvs, hadj] at hok
        exact Except.noConfusion hok
      | ok o1 =>
        cases hrec : runEvs o1.ch rest with
        | error err =>
          simp only [runEvs, hadj, hrec] at hok
          exact Except.noConfusion hok
        | ok o2 =>
          simp only [runEvs, hadj, hrec] at hok
          have hin : (⟨o2.ch, o1.pkts ++ o2.pkts, o1.calls ++ o2.calls,
              o1.evs ++ o2.evs⟩ : Outcome) = o := Except.ok.inj hok
          subst hin
          dsimp only
          obtain ⟨hg1, hcount1, hpres⟩ := adjust_step ch n o1 hg hadj
          obtain ⟨hg2, hcount2, hmono2, hclose2⟩ := ih o1.ch o2 hg1 hrec
          have hmono : ch.send_state ≠ SendState.opened →
              o2.ch.send_state ≠ SendState.opened := by
            intro hch
            refine hmono2 ?_
            rcases hpres with h | ⟨_, h⟩
            · rw [h]; exact hch
            · rw [h]; simp
          refine ⟨hg2, ?_, hmono, fun hm => ?_⟩
          · rw [countClose_append]
            omega
          · have : Ev.close ∈ rest := by
              rcases List.mem_cons.mp hm with h | h
              · cases h
              · exact h
            exact hclose2 this

/-- C8: `close()` is idempotent.  Once `send_state` reached
`close_pending` (or beyond), a further `close()` changes nothing and
emits nothing; and along any trace of `close()` calls interleaved with
inbound window adjusts from an open channel, at most one `CHANNEL_CLOSE`
is emitted, with exactly one once the send buffer has drained after some
`close()` call. -/
theorem c8_close_idempotent :
    (∀ ch : Channel,
      (ch.send_state = SendState.close_pending ∨
       ch.send_state = SendState.close_sent ∨
       ch.send_state = SendState.closed) →
      close ch = ⟨ch, [], [], []⟩) ∧
    (∀ (ch : Channel) (evs : List Ev) (o : Outcome),
      ch.send_state = SendState.opened →
      runEvs ch evs = Except.ok o →
      countClose o.pkts ≤ 1 ∧
      (Ev.close ∈ evs → o.ch.send_buf = [] → countClose o.pkts = 1)) := by
  constructor
  · intro ch h
    unfold close
    rw [if_pos h]
  · intro ch evs o h hok
    have hg : GoodState ch := by
      refine ⟨Or.inl h, fun hc => ?_⟩
      rw [h] at hc
      cases hc
    obtain ⟨hg', hcount, _, hclose⟩ := runEvs_spec evs ch o hg hok
    have hflag0 : closeFlag ch.send_state = 0 := by simp [closeFlag, h]
    have hle : closeFlag o.ch.send_state ≤ 1 := by
      unfold closeFlag
      split_ifs <;> omega
    refine ⟨by omega, fun hmem hbuf => ?_⟩
    have hno : o.ch.send_state ≠ SendState.opened := hclose hmem
    rcases hg'.1 with h1 | h1 | h1
    · exact absurd h1 hno
    · exact absurd hbuf (hg'.2 h1)
    · have : closeFlag o.ch.send_state = 1 := by simp [closeFlag, h1]
      omega

/-- Witness for C8: two `close()` calls on an open channel with an empty
send buffer emit exactly one `CHANNEL_CLOSE`. -/
theorem c8_close_idempotent_witness :
    chanW100.send_state = SendState.opened ∧
    runEvs chanW100 [Ev.close, Ev.close] =
      Except.ok ⟨{ chanW100 with send_state := SendState.close_sent },
                 [Packet.close], [], []⟩ ∧
    (countClose [Packet.close] ≤ 1 ∧
     (Ev.close ∈ [Ev.close, Ev.close] →
      ({ chanW100 with send_state := SendState.close_sent } :
        Channel).send_buf = [] →
      countClose [Packet.close] = 1)) :=
  ⟨by decide, by decide,
   c8_close_idempotent.2 chanW100 [Ev.close, Ev.close]
     ⟨{ chanW100 with send_state := SendState.close_sent },
      [Packet.close], [], []⟩ (by decide) (by decide)⟩

/-! ### Text decoding across packet boundaries (C9) -/

/-- `decodeLoopAux` does not depend on the fuel once it covers the input
length. -/
theorem decodeLoopAux_congr : ∀ (f g : Nat) (bs : List Nat),
    bs.length ≤ f → bs.length ≤ g →
    decodeLoopAux f bs = decodeLoopAux g bs := by
  intro f
  induction f with
  | zero =>
    intro g bs hf hg
    match bs with
    | [] => cases g <;> rfl
    | b :: tl => simp at hf
  | succ n ih =>
    intro g bs hf hg
    match bs, g with
    | [], g => cases g <;> rfl
    | b :: tl, 0 => simp at hg
    | b :: tl, g + 1 =>
      simp only [decodeLoopAux]
      cases hpd : pyDecode (b :: tl) with
      | ok cps => rfl
      | error e =>
        obtain ⟨s, r⟩ := e
        by_cases hs : 0 < s
        · have hl1 : ((b :: tl).drop s).length ≤ n := by
            simp only [List.length_drop, List.length_cons] at *
            omega
          have hl2 : ((b :: tl).drop s).length ≤ g := by
            simp only [List.length_drop, List.length_cons] at *
            omega
          dsimp only
          rw [if_pos hs, if_pos hs, ih g _ hl1 hl2]
        · dsimp only
          rw [if_neg hs, if_neg hs]

/-- If the whole input decodes, the loop delivers it as one segment and
stashes nothing. -/
theorem decodeLoop_full (input : List Nat) (hne : input ≠ [])
    (cps : List Nat) (hpd : pyDecode input = Except.ok cps) :
    decodeLoop input = Except.ok ([cps], []) := by
  match input with
  | [] => exact absurd rfl hne
  | b :: tl =>
    unfold decodeLoop
    simp [List.length_cons, decodeLoopAux, hpd]

/-- If decoding fails at offset zero because the input ends inside a
sequence, the loop delivers nothing and leaves the whole input as the
remainder to stash. -/
theorem decodeLoop_end (input : List Nat) (hne : input ≠ [])
    (hpd : pyDecode input = Except.error (0, DecodeReason.unexpectedEnd)) :
    decodeLoop input = Except.ok ([], input) := by
  match input with
  | [] => exact absurd rfl hne
  | b :: tl =>
    unfold decodeLoop
    simp [List.length_cons, decodeLoopAux, hpd]

/-- If decoding fails at a positive offset, the loop delivers the valid
prefix before the offset and continues on the remainder. -/
theorem decodeLoop_mid (input : List Nat) (s : Nat) (r : DecodeReason)
    (hpd : pyDecode input = Except.error (s, r)) (hs : 0 < s) :
    decodeLoop input =
      (match decodeLoop (input.drop s) with
       | Except.ok (segs, rem) =>
         Except.ok (pyDecodeForce (input.take s) :: segs, rem)
       | Except.error e => Except.error e) := by
  match input with
  | [] =>
    rw [show pyDecode [] = Except.ok [] from rfl] at hpd
    exact Except.noConfusion hpd
  | b :: tl =>
    unfold decodeLoop
    simp only [List.length_cons, decodeLoopAux, hpd]
    rw [if_pos hs]
    rw [decodeLoopAux_congr tl.length ((b :: tl).drop s).length
      ((b :: tl).drop s)
      (by simp only [List.length_drop, List.length_cons]; omega)
      (Nat.le_refl _)]

/-- `deliverWindow` touches only `recv_window`. -/
theorem deliverWindow_fields (ch : Channel) (n : Nat) :
    (deliverWindow ch n).1.recv_partial_map = ch.recv_partial_map ∧
    (deliverWindow ch n).1.encoding = ch.encoding := by
  simp only [deliverWindow]
  split_ifs <;> exact ⟨rfl, rfl⟩

/-- C9 (amended): on a channel with a text encoding, for every delivered
data packet the incomplete tail stashed in `recv_partial_map` for that
datatype is prepended to the new bytes before decoding (first two
conjuncts: the decode consumes `tail ++ data` and the tail entry is
removed); a partial-codepoint failure at the end of the buffer stashes
the whole remainder and delivers only the decoded prefix (second and
third conjuncts); delivering EOF while a `recv_partial_map` tail exists for
the datatype of the EOF delivery itself (`None` for `CHANNEL_EOF`)
raises a protocol error — a tail under another datatype does not
(fourth conjunct, plus the separate counterexample); and a UTF-8 code
point split across two `DATA` packets is delivered as the single decoded
character followed by the rest, the 2-byte tail being held in
`recv_partial_map` between the packets (last conjuncts). -/
theorem c9_partial_decode :
    (∀ (ch : Channel) (data : List Nat) (datatype : Option Nat)
       (tail cps : List Nat),
      ch.encoding = true →
      mapLookup ch.recv_partial_map datatype = some tail →
      data ≠ [] →
      pyDecode (tail ++ data) = Except.ok cps →
      deliver_data ch (ChanData.bytes data) datatype =
        Except.ok ⟨{ (deliverWindow ch data.length).1 with
                     recv_partial_map := mapErase ch.recv_partial_map datatype },
                   (deliverWindow ch data.length).2,
                   [SessionCall.data_received cps datatype], []⟩) ∧
    (∀ (ch : Channel) (data : List Nat) (datatype : Option Nat),
      ch.encoding = true →
      data ≠ [] →
      pyDecode ((mapLookup ch.recv_partial_map datatype).getD [] ++ data) =
        Except.error (0, DecodeReason.unexpectedEnd) →
      deliver_data ch (ChanData.bytes data) datatype =
        Except.ok ⟨{ (deliverWindow ch data.length).1 with
                     recv_partial_map := mapInsert ch.recv_partial_map datatype
                       ((mapLookup ch.recv_partial_map datatype).getD [] ++ data) },
                   (deliverWindow ch data.length).2, [], []⟩) ∧
    (∀ (input : List Nat) (s : Nat) (r : DecodeReason),
      pyDecode input = Except.error (s, r) → 0 < s →
      decodeLoop input =
        (match decodeLoop (input.drop s) with
         | Except.ok (segs, rem) =>
           Except.ok (pyDecodeForce (input.take s) :: segs, rem)
         | Except.error e => Except.error e)) ∧
    (∀ (ch : Channel) (datatype : Option Nat),
      (mapLookup ch.recv_partial_map datatype).isSome = true →
      deliver_data ch ChanData.eof datatype =
        Except.error (ChanError.disconnect "Unicode decode error")) ∧
    (runDataPackets chanU [[0xE2, 0x98]] =
      Except.ok ⟨{ chanU with
                   recv_window := 98,
                   recv_partial_map := [(none, [0xE2, 0x98])] },
                 [], [], []⟩) ∧
    (callsOf (runDataPackets chanU [[0xE2, 0x98], [0x83, 0x78]]) =
      [SessionCall.data_received [0x2603, 0x78] none]) ∧
    ((chOf (runDataPackets chanU [[0xE2, 0x98], [0x83, 0x78]])
        chanU).recv_partial_map = []) := by
  refine ⟨?_, ?_, ?_, ?_, by decide, by decide, by decide⟩
  · intro ch data datatype tail cps henc hlk hdata hpd
    have hne : tail ++ data ≠ [] := by simp [hdata]
    have hdl := decodeLoop_full (tail ++ data) hne cps hpd
    simp only [deliver_data, henc, hlk, Option.getD_some, if_true]
    simp only [deliverText, hdl, List.isEmpty_nil, if_true, List.map]
    rw [(deliverWindow_fields ch data.length).1]
  · intro ch data datatype henc hdata hpd
    have hne : (mapLookup ch.recv_partial_map datatype).getD [] ++ data ≠ [] := by
      simp [hdata]
    have hdl := decodeLoop_end _ hne hpd
    simp only [deliver_data, henc, if_true]
    simp only [deliverText, hdl]
    have hrem : ((mapLookup ch.recv_partial_map datatype).getD [] ++
        data).isEmpty = false := by
      simp [hdata]
    simp only [hrem, Bool.false_eq_true, if_false, List.map]
    rw [(deliverWindow_fields ch data.length).1]
  · exact fun input s r hpd hs => decodeLoop_mid input s r hpd hs
  · intro ch datatype hlk
    simp [deliver_data, hlk]

/-- Witness for C9 at concrete inputs: a stashed tail under the `None`
datatype makes an EOF delivery raise the protocol error, and a stashed
tail is prepended to the next packet of the snowman scenario. -/
theorem c9_partial_decode_witness :
    ((mapLookup ([(none, [0xE2])] :
        List (Option Nat × List Nat)) none).isSome = true) ∧
    deliver_data { chanU with recv_partial_map := [(none, [0xE2])] }
        ChanData.eof none =
      Except.error (ChanError.disconnect "Unicode decode error") ∧
    chanU.encoding = true ∧
    mapLookup ({ chanU with recv_partial_map := [(none, [0xE2, 0x98])]} :
        Channel).recv_partial_map none = some [0xE2, 0x98] ∧
    pyDecode ([0xE2, 0x98] ++ [0x83, 0x78]) =
      Except.ok [0x2603, 0x78] ∧
    deliver_data { chanU with recv_partial_map := [(none, [0xE2, 0x98])] }
        (ChanData.bytes [0x83, 0x78]) none =
      Except.ok ⟨{ (deliverWindow
            { chanU with recv_partial_map := [(none, [0xE2, 0x98])] } 2).1 with
          recv_partial_map := mapErase [(none, [0xE2, 0x98])] none },
        (deliverWindow
            { chanU with recv_partial_map := [(none, [0xE2, 0x98])] } 2).2,
        [SessionCall.data_received [0x2603, 0x78] none], []⟩ :=
  ⟨by decide,
   c9_partial_decode.2.2.2.1 { chanU with recv_partial_map := [(none, [0xE2])] }
     none (by decide),
   by decide, by decide, by decide,
   c9_partial_decode.1 { chanU with recv_partial_map := [(none, [0xE2, 0x98])] }
     [0x83, 0x78] none [0xE2, 0x98] [0x2603, 0x78] (by decide) (by decide)
     (by decide) (by decide)⟩

end AsyncSSH
